import Mathlib

/-!
Shallow embedding of the streaming session manager of
`homebridge-unifi-protect2` (`src/protect-stream.ts`), together with theorems
settling the specification's claims about it.

The registries `pendingSessions` / `ongoingSessions` (JavaScript objects keyed
by session id) are embedded as association lists with unique keys; JavaScript
property assignment is `insertA` (replace), `delete` is `eraseA`, and indexing
is `lookupA`.  External collaborators (the ffmpeg subprocess supervisor, the
RTP splitter, the port reservation utility and the HomeKit SSRC generator) are
embedded as explicit handles and oracles, following the contracts of the
specification where their code is not part of the analysed sources.
-/

namespace Protect

/-- Lookup in an association list keyed by session id, mirroring JavaScript
object indexing `obj[key]` (returns `none` for a missing key). -/
def lookupA {α : Type} : List (String × α) → String → Option α
  | [], _ => none
  | p :: l, k => if p.1 = k then some p.2 else lookupA l k

/-- Deletion from an association list, mirroring JavaScript `delete obj[key]`
(removes every entry with the given key; a no-op when the key is absent). -/
def eraseA {α : Type} : List (String × α) → String → List (String × α)
  | [], _ => []
  | p :: l, k => if p.1 = k then eraseA l k else p :: eraseA l k

/-- Insertion into an association list, mirroring JavaScript assignment
`obj[key] = v` (the key ends up bound exactly once). -/
def insertA {α : Type} (l : List (String × α)) (k : String) (v : α) :
    List (String × α) :=
  (k, v) :: eraseA l k

/-- Number of entries carrying the given key. -/
def countKey {α : Type} (l : List (String × α)) (k : String) : Nat :=
  (l.filter (fun p => decide (p.1 = k))).length

/-- Join a list of strings with a separator, mirroring JavaScript
`Array.prototype.join`. -/
def joinSep (sep : String) : List String → String
  | [] => ""
  | [x] => x
  | x :: y :: xs => x ++ sep ++ joinSep sep (y :: xs)

/-- Per-session record stored in `pendingSessions` at negotiate time
(`SessionInfo` in `protect-stream.ts`).  Byte buffers are lists of naturals,
SRTP crypto suites are the numeric HomeKit enumeration values, and the
RTP splitter (external collaborator) is an optional opaque handle. -/
structure SessionInfo where
  address : String
  addressVersion : String
  videoPort : Nat
  videoReturnPort : Nat
  videoCryptoSuite : Nat
  videoSRTP : List Nat
  videoSSRC : Nat
  hasLibFdk : Bool
  audioPort : Nat
  audioReturnPort : Nat
  audioTwoWayPort : Int
  rtpSplitter : Option Nat
  audioCryptoSuite : Nat
  audioSRTP : List Nat
  audioSSRC : Nat
deriving Repr, DecidableEq

/-- Per-session record stored in `ongoingSessions` at start time: the owned
ffmpeg subprocess handles and the optional RTP splitter handle. -/
structure ActiveSession where
  ffmpeg : List Nat
  rtpSplitter : Option Nat
deriving Repr, DecidableEq

/-- The two session registries of `ProtectStreamingDelegate`
(`pendingSessions` and `ongoingSessions`). -/
structure RegState where
  pendingSessions : List (String × SessionInfo)
  ongoingSessions : List (String × ActiveSession)
deriving Repr, DecidableEq

/-- Failure oracle for the external teardown calls made by `stopStream`:
whether `FfmpegProcess.stop()` on a given handle throws, and whether
`RtpSplitter.close()` on a given handle throws. -/
structure StopEnv where
  procStopFails : Nat → Bool
  splitterCloseFails : Nat → Bool

/-- Outcome of `stopStream`: the registries afterwards, the subprocess handles
on which `stop()` was invoked (signalled to terminate), the splitter handles on
which `close()` was invoked, and whether the surrounding `catch` block logged
an internal error.  `stopStream` itself never throws to its caller: the
embedding is a total function. -/
structure StopOutcome where
  state : RegState
  signaled : List Nat
  splitterClosed : List Nat
  errorLogged : Bool
deriving Repr, DecidableEq

/-- The `for` loop of `stopStream` over the session's ffmpeg processes:
invokes `stop()` on each handle in order; a throw aborts the loop.  Returns the
handles signalled and whether a throw occurred. -/
def runStops (env : StopEnv) : List Nat → List Nat × Bool
  | [] => ([], false)
  | p :: ps =>
    if env.procStopFails p then ([p], true)
    else
      let r := runStops env ps
      (p :: r.1, r.2)

/-- Embedding of `ProtectStreamingDelegate.stopStream` (protect-stream.ts,
lines 507-531).  The whole body is wrapped in `try`/`catch`: any throw from
subprocess termination or splitter close is caught and logged, so the deletes
of the two registry entries run only when no internal call threw. -/
def stopStream (s : RegState) (env : StopEnv) (sessionId : String) :
    StopOutcome :=
  match lookupA s.ongoingSessions sessionId with
  | none =>
    { state := ⟨eraseA s.pendingSessions sessionId,
                eraseA s.ongoingSessions sessionId⟩,
      signaled := [], splitterClosed := [], errorLogged := false }
  | some act =>
    let r := runStops env act.ffmpeg
    if r.2 then
      { state := s, signaled := r.1, splitterClosed := [], errorLogged := true }
    else
      match act.rtpSplitter with
      | some sp =>
        if env.splitterCloseFails sp then
          { state := s, signaled := r.1, splitterClosed := [sp],
            errorLogged := true }
        else
          { state := ⟨eraseA s.pendingSessions sessionId,
                      eraseA s.ongoingSessions sessionId⟩,
            signaled := r.1, splitterClosed := [sp], errorLogged := false }
      | none =>
        { state := ⟨eraseA s.pendingSessions sessionId,
                    eraseA s.ongoingSessions sessionId⟩,
          signaled := r.1, splitterClosed := [], errorLogged := false }

/-- The shutdown handler registered in the constructor (lines 101-105):
iterate the keys of `ongoingSessions` and call `stopStream` on each,
accumulating every subprocess handle that was signalled. -/
def shutdownFold (env : StopEnv) : List String → RegState × List Nat →
    RegState × List Nat
  | [], acc => acc
  | id :: rest, acc =>
    let r := stopStream acc.1 env id
    shutdownFold env rest (r.state, acc.2 ++ r.signaled)

/-- Embedding of the `APIEvent.SHUTDOWN` handler: `stopStream` on every key of
`ongoingSessions`. -/
def shutdown (s : RegState) (env : StopEnv) : RegState × List Nat :=
  shutdownFold env (s.ongoingSessions.map (fun p => p.1)) (s, [])

/-- Sequential deletion of a list of keys from an association list; the shape
into which the shutdown loop's repeated `delete` operations compose. -/
def eraseMany {α : Type} : List (String × α) → List String → List (String × α)
  | l, [] => l
  | l, id :: rest => eraseMany (eraseA l id) rest

/-- A teardown environment in which no subprocess-termination or socket-close
call throws. -/
def noFailEnv : StopEnv := ⟨fun _ => false, fun _ => false⟩

/-- A sample negotiated session record used for concrete instantiations. -/
def sampleInfo : SessionInfo :=
  { address := "10.0.0.9", addressVersion := "ipv4", videoPort := 50000,
    videoReturnPort := 40004, videoCryptoSuite := 0, videoSRTP := [1, 2, 3],
    videoSSRC := 9, hasLibFdk := true, audioPort := 50002,
    audioReturnPort := 40000, audioTwoWayPort := -1, rtpSplitter := none,
    audioCryptoSuite := 0, audioSRTP := [9, 8, 7, 6, 5], audioSSRC := 7 }

/-- One address record of `os.networkInterfaces()` for an interface. -/
structure IfaceInfo where
  address : String
  family : String
  internal : Bool
deriving Repr, DecidableEq

/-- Embedding of `ProtectStreamingDelegate.getDefaultIpAddress`
(protect-stream.ts, lines 534-557).  `ifaces` is the (possibly undefined)
address list of the host's default network interface; the JavaScript
`find(...) || externalInfo?.[0]` fallback and the final `return null as any`
are modelled with `Option`. -/
def getDefaultIpAddress (ifaces : Option (List IfaceInfo))
    (addressVersion : String) : Option String :=
  let externalInfo := ifaces.map (fun l => l.filter (fun i => !i.internal))
  let preferredFamily := if addressVersion = "ipv6" then "IPv6" else "IPv4"
  let found := externalInfo.bind
    (fun l => l.find? (fun i => decide (i.family = preferredFamily)))
  let addressInfo :=
    match found with
    | some x => some x
    | none => externalInfo.bind (fun l => l.head?)
  addressInfo.map (fun i => i.address)

/-- Modelled from the spec: `RtpUtils.reservePorts` lives in
`protect-rtp.ts`, which is not among the analysed sources.  Per the
specification (§4.3) it reserves `count` ephemeral UDP ports via
bind-then-release and returns the chosen numbers.  Embedded as drawing
`count` consecutive fresh numbers from an allocator counter. -/
def reservePorts (next : Nat) (count : Nat) : List Nat × Nat :=
  (List.range' next count, next + count)

/-- SRTP parameters of one media leg of a HomeKit `prepareStream` request. -/
structure MediaRequestParams where
  port : Nat
  srtpCryptoSuite : Nat
  srtp_key : List Nat
  srtp_salt : List Nat
deriving Repr, DecidableEq

/-- A HomeKit `PrepareStreamRequest`. -/
structure PrepareRequest where
  sessionID : String
  targetAddress : String
  addressVersion : String
  video : MediaRequestParams
  audio : MediaRequestParams
deriving Repr, DecidableEq

/-- One media leg of the `PrepareStreamResponse`. -/
structure MediaResponse where
  port : Nat
  ssrc : Nat
  srtp_key : List Nat
  srtp_salt : List Nat
deriving Repr, DecidableEq

/-- The `PrepareStreamResponse` returned through the negotiate callback;
`address` is `none` when `getDefaultIpAddress` returned null. -/
structure PrepareResponse where
  address : Option String
  video : MediaResponse
  audio : MediaResponse
deriving Repr, DecidableEq

/-- Environment of a negotiation: the result of the one-time
`FfmpegProcess.codecEnabled` AAC probe, the camera's two-way-audio
capability, the successive values produced by the HomeKit
`generateSynchronisationSource` generator (modelled per the §4.3 contract as
an externally supplied sequence, drawn in call order), the allocator counter
for `reservePorts`, the handle for a freshly constructed `RtpSplitter`, and
the default interface's address list. -/
structure PrepareEnv where
  hasLibFdk : Bool
  twoWayAudio : Bool
  ssrcValues : List Nat
  nextPort : Nat
  splitterId : Nat
  ifaceAddrs : Option (List IfaceInfo)
deriving Repr

/-- Outcome of `prepareStream`: the updated registries, the response handed to
the callback, the UDP ports drawn for the video leg and for the audio legs,
and the allocator counter afterwards. -/
structure PrepareResult where
  state : RegState
  response : PrepareResponse
  videoPortsReserved : List Nat
  audioPortsReserved : List Nat
  nextPortAfter : Nat
deriving Repr, DecidableEq

/-- Embedding of `ProtectStreamingDelegate.prepareStream` (protect-stream.ts,
lines 176-251).  Reservation order follows the source: audio return port,
then (only when AAC support and two-way audio are both present) the audio
server port and the two talkback ports, then the video return port.  The
audio SSRC is generated before the video SSRC, as in the source.  The
operation always stores the pending record and invokes the success callback;
it has no failure path. -/
def prepareStream (s : RegState) (env : PrepareEnv) (req : PrepareRequest) :
    PrepareResult :=
  let hasLibFdk := env.hasLibFdk
  let r1 := reservePorts env.nextPort 1
  let audioReturnPort := r1.1.headD 0
  let twoWay := hasLibFdk && env.twoWayAudio
  let r2 := if twoWay then reservePorts r1.2 1 else ([], r1.2)
  let audioServerPort := r2.1.headD 0
  let r3 := if twoWay then reservePorts r2.2 2 else ([], r2.2)
  let audioTwoWayPort : Int := if twoWay then (r3.1.headD 0 : Nat) else -1
  let audioSSRC := env.ssrcValues.getD 0 0
  let rtpSplitter := if twoWay then some env.splitterId else none
  let r4 := reservePorts r3.2 1
  let videoReturnPort := r4.1.headD 0
  let videoSSRC := env.ssrcValues.getD 1 0
  let sessionInfo : SessionInfo :=
    { address := req.targetAddress,
      addressVersion := req.addressVersion,
      videoPort := req.video.port,
      videoReturnPort := videoReturnPort,
      videoCryptoSuite := req.video.srtpCryptoSuite,
      videoSRTP := req.video.srtp_key ++ req.video.srtp_salt,
      videoSSRC := videoSSRC,
      hasLibFdk := hasLibFdk,
      audioPort := req.audio.port,
      audioReturnPort := audioReturnPort,
      audioTwoWayPort := audioTwoWayPort,
      rtpSplitter := rtpSplitter,
      audioCryptoSuite := req.audio.srtpCryptoSuite,
      audioSRTP := req.audio.srtp_key ++ req.audio.srtp_salt,
      audioSSRC := audioSSRC }
  let currentAddress := getDefaultIpAddress env.ifaceAddrs req.addressVersion
  let response : PrepareResponse :=
    { address := currentAddress,
      video := { port := videoReturnPort, ssrc := videoSSRC,
                 srtp_key := req.video.srtp_key,
                 srtp_salt := req.video.srtp_salt },
      audio := { port := if twoWay then audioServerPort else audioReturnPort,
                 ssrc := audioSSRC,
                 srtp_key := req.audio.srtp_key,
                 srtp_salt := req.audio.srtp_salt } }
  { state := ⟨insertA s.pendingSessions req.sessionID sessionInfo,
              s.ongoingSessions⟩,
    response := response,
    videoPortsReserved := r4.1,
    audioPortsReserved := r1.1 ++ r2.1 ++ r3.1,
    nextPortAfter := r4.2 }

/-- A sample negotiate request used for concrete instantiations. -/
def sampleReq : PrepareRequest :=
  { sessionID := "s1", targetAddress := "10.0.0.9", addressVersion := "ipv4",
    video := ⟨50000, 0, [1, 2], [3]⟩, audio := ⟨50002, 0, [9, 8, 7], [6, 5]⟩ }

/-- The base64 alphabet, in encoding order. -/
def base64Chars : List Char :=
  "ABCDEFGHIJKLMNOPQRSTUVWXYZabcdefghijklmnopqrstuvwxyz0123456789+/".toList

/-- Character of the base64 alphabet at a six-bit index. -/
def b64Char (n : Nat) : Char := base64Chars.getD n 'A'

/-- Standard base64 encoding of a byte list, the embedding of Node's
`Buffer.prototype.toString` with the base64 encoding, used by the source for
the SRTP key+salt material. -/
def toBase64 : List Nat → String
  | [] => ""
  | [a] => String.mk [b64Char (a / 4), b64Char (a % 4 * 16)] ++ "=="
  | [a, b] => String.mk [b64Char (a / 4), b64Char (a % 4 * 16 + b / 16),
      b64Char (b % 16 * 4)] ++ "="
  | a :: b :: c :: rest =>
    String.mk [b64Char (a / 4), b64Char (a % 4 * 16 + b / 16),
      b64Char (b % 16 * 4 + c / 64), b64Char (c % 64)] ++ toBase64 rest

/-- The empirically tuned video transport packet size (protect-stream.ts,
line 278). -/
def videomtu : Nat := 188 * 3

/-- The audio transport packet size (protect-stream.ts, line 279). -/
def audiomtu : Nat := 188 * 1

/-- The module-level verbosity flag (protect-stream.ts, line 37). -/
def beVerbose : Bool := false

/-- The camera's talkback settings, read from the accessory context by the
two-way audio path of `startStream`. -/
structure TalkbackSettings where
  typeFmt : String
  samplingRate : Nat
  channels : Nat
  bindPort : Nat
deriving Repr, DecidableEq

/-- Environment of a start request: camera and platform configuration plus
the handles of the subprocesses the supervisor would create (outbound
transcode, inbound return audio). -/
structure StartEnv where
  twoWayAudio : Bool
  cameraUrl : String
  ffmpegOptions : String
  name : String
  debugMode : Bool
  camHost : String
  talkback : TalkbackSettings
  outboundHandle : Nat
  returnAudioHandle : Nat
deriving Repr, DecidableEq

/-- A HomeKit `StartStreamRequest`, with the video and audio fields the source
reads. -/
structure StartRequest where
  sessionID : String
  videoWidth : Nat
  videoHeight : Nat
  videoFps : Nat
  videoMaxBitrate : Nat
  videoPt : Nat
  audioSampleRate : Nat
  audioMaxBitrate : Nat
  audioPt : Nat
deriving Repr, DecidableEq

/-- Initial segment of the ffmpeg command (protect-stream.ts, line 282). -/
def ffmpegBase (env : StartEnv) : String :=
  "-hide_banner -rtsp_transport tcp -i " ++ env.cameraUrl

/-- The `ffmpegVideoArgs` array of the source (lines 301-313), joined with
spaces. -/
def ffmpegVideoArgs (env : StartEnv) (req : StartRequest) : String :=
  joinSep " " ["", "-map 0:v", "-vcodec copy", "-f rawvideo",
    "-pix_fmt yuvj420p", "-r " ++ toString req.videoFps, env.ffmpegOptions,
    "-b:v " ++ toString req.videoMaxBitrate ++ "k",
    "-bufsize " ++ toString (2 * req.videoMaxBitrate) ++ "k",
    "-maxrate " ++ toString req.videoMaxBitrate ++ "k",
    "-payload_type " ++ toString req.videoPt]

/-- The video SRTP egress URL, the last element of the source's
`ffmpegVideoStream` array (lines 326-327). -/
def srtpVideoUrl (info : SessionInfo) : String :=
  "srtp://" ++ info.address ++ ":" ++ toString info.videoPort ++ "?rtcpport="
    ++ toString info.videoPort ++ "&localrtcpport=" ++ toString info.videoPort
    ++ "&pkt_size=" ++ toString videomtu

/-- The `ffmpegVideoStream` array of the source (lines 320-328), joined with
spaces. -/
def ffmpegVideoStream (info : SessionInfo) : String :=
  joinSep " " ["", "-ssrc " ++ toString info.videoSSRC, "-f rtp",
    "-srtp_out_suite AES_CM_128_HMAC_SHA1_80",
    "-srtp_out_params " ++ toBase64 info.videoSRTP, srtpVideoUrl info]

/-- The `ffmpegAudioArgs` array of the source (lines 352-364), joined with
spaces. -/
def ffmpegAudioArgs (req : StartRequest) : String :=
  joinSep " " ["", "-map 0:a", "-acodec libfdk_aac", "-profile:a aac_eld",
    "-flags +global_header", "-f null",
    "-ar " ++ toString req.audioSampleRate ++ "k",
    "-b:a " ++ toString req.audioMaxBitrate ++ "k",
    "-bufsize " ++ toString (2 * req.audioMaxBitrate) ++ "k", "-ac 1",
    "-payload_type " ++ toString req.audioPt]

/-- The audio SRTP egress URL, the last element of the source's
`ffmpegAudioStream` array (lines 377-378). -/
def srtpAudioUrl (info : SessionInfo) : String :=
  "srtp://" ++ info.address ++ ":" ++ toString info.audioPort ++ "?rtcpport="
    ++ toString info.audioPort ++ "&localrtcpport=" ++ toString info.audioPort
    ++ "&pkt_size=" ++ toString audiomtu

/-- The `ffmpegAudioStream` array of the source (lines 371-379), joined with
spaces. -/
def ffmpegAudioStream (info : SessionInfo) : String :=
  joinSep " " ["", "-ssrc " ++ toString info.audioSSRC, "-f rtp",
    "-srtp_out_suite AES_CM_128_HMAC_SHA1_80",
    "-srtp_out_params " ++ toBase64 info.audioSRTP, srtpAudioUrl info]

/-- The `-loglevel` tail appended under the verbosity flags (lines 386-390 and
466-471). -/
def logSuffix (env : StartEnv) : String :=
  if beVerbose then " -loglevel level+verbose"
  else if env.debugMode then " -loglevel level+debug" else ""

/-- The complete outbound transcode command `fcmd` assembled by `startStream`:
base, video arguments, video RTP leg, then — only when the AAC probe
succeeded — audio arguments and audio RTP leg, then the log-level tail. -/
def buildFcmd (env : StartEnv) (req : StartRequest) (info : SessionInfo) :
    String :=
  let f1 := ffmpegBase env ++ ffmpegVideoArgs env req ++ ffmpegVideoStream info
  let f2 := if info.hasLibFdk then
      f1 ++ ffmpegAudioArgs req ++ ffmpegAudioStream info
    else f1
  f2 ++ logSuffix env

/-- The `sdpIpVersion` ternary of the source (line 407) — note the stray
trailing space inside the string literal for the IPv6 arm. -/
def sdpIpVersion (addressVersion : String) : String :=
  if addressVersion = "ipv6" then "IP6 " else "IP4"

/-- The `sdpReturnAudio` array of the source (lines 423-434), before joining
with newlines. -/
def sdpReturnAudioLines (name : String) (info : SessionInfo) : List String :=
  ["v=0",
   "o=- 0 0 IN " ++ sdpIpVersion info.addressVersion ++ " 127.0.0.1",
   "s=" ++ name ++ " Audio Talkback",
   "c=IN " ++ sdpIpVersion info.addressVersion ++ " " ++ info.address,
   "t=0 0",
   "m=audio " ++ toString info.audioTwoWayPort ++ " RTP/AVP 110",
   "b=AS:24",
   "a=rtpmap:110 MPEG4-GENERIC/16000/1",
   "a=fmtp:110 profile-level-id=1;mode=AAC-hbr;sizelength=13;indexlength=3;indexdeltalength=3; config=F8F0212C00BC00",
   "a=crypto:1 AES_CM_128_HMAC_SHA1_80 inline:" ++ toBase64 info.audioSRTP]

/-- The session description fed to the return-audio subprocess's standard
input. -/
def sdpReturnAudio (name : String) (info : SessionInfo) : String :=
  joinSep "\n" (sdpReturnAudioLines name info)

/-- The `ffmpegReturnAudioCmd` of the source (lines 450-464) with its
log-level tail. -/
def ffmpegReturnAudioCmd (env : StartEnv) : String :=
  joinSep " " ["-hide_banner",
    "-protocol_whitelist pipe,udp,rtp,file,crypto", "-f sdp",
    "-acodec libfdk_aac", "-i pipe:0", "-map 0:a",
    "-acodec " ++ env.talkback.typeFmt, "-flags +global_header",
    "-ar " ++ toString env.talkback.samplingRate, "-b:a 64k",
    "-ac " ++ toString env.talkback.channels, "-f adts",
    "udp://" ++ env.camHost ++ ":" ++ toString env.talkback.bindPort]
    ++ logSuffix env

/-- Failure of `startStream`: indexing `pendingSessions` with an unknown
session id yields `undefined`, and the first field access on it throws,
aborting the operation before any subprocess is launched or any registry is
touched.  No other failure path exists in the embedded fragment. -/
inductive StartError where
  | noPendingSession
deriving Repr, DecidableEq

/-- Outcome of a successful `startStream`: the registries afterwards, the
outbound transcode command, the subprocess handles launched (in launch
order), and — on the two-way audio path — the return-audio command and the
session description written to that subprocess's standard input. -/
structure StartResult where
  state : RegState
  cmd : String
  launched : List Nat
  returnAudioCmd : Option String
  sdp : Option String
deriving Repr, DecidableEq

/-- Embedding of `ProtectStreamingDelegate.startStream` (protect-stream.ts,
lines 254-481).  On success the ongoing entry is written and the pending
entry deleted (lines 398-399); the two-way audio path then replaces the
ongoing entry's process list with both handles (the `push` of line 476) and
produces the session description. -/
def startStream (s : RegState) (env : StartEnv) (req : StartRequest) :
    Except StartError StartResult :=
  match lookupA s.pendingSessions req.sessionID with
  | none => .error .noPendingSession
  | some sessionInfo =>
    let fcmd := buildFcmd env req sessionInfo
    let s1 : RegState :=
      ⟨eraseA s.pendingSessions req.sessionID,
       insertA s.ongoingSessions req.sessionID
         ⟨[env.outboundHandle], sessionInfo.rtpSplitter⟩⟩
    if !sessionInfo.hasLibFdk || !env.twoWayAudio then
      .ok ⟨s1, fcmd, [env.outboundHandle], none, none⟩
    else
      let s2 : RegState :=
        ⟨s1.pendingSessions,
         insertA s1.ongoingSessions req.sessionID
           ⟨[env.outboundHandle, env.returnAudioHandle],
             sessionInfo.rtpSplitter⟩⟩
      .ok ⟨s2, fcmd, [env.outboundHandle, env.returnAudioHandle],
        some (ffmpegReturnAudioCmd env),
        some (sdpReturnAudio env.name sessionInfo)⟩

/-- A sample start environment used for concrete instantiations. -/
def sampleStartEnv : StartEnv :=
  { twoWayAudio := false, cameraUrl := "rtsp://10.0.0.5:7447/abc",
    ffmpegOptions := "-probesize 32768", name := "Cam", debugMode := false,
    camHost := "10.0.0.5", talkback := ⟨"aac", 22050, 1, 7004⟩,
    outboundHandle := 101, returnAudioHandle := 102 }

/-- A sample start request used for concrete instantiations. -/
def sampleStartReq : StartRequest :=
  { sessionID := "s1", videoWidth := 1280, videoHeight := 720, videoFps := 30,
    videoMaxBitrate := 299, videoPt := 99, audioSampleRate := 16,
    audioMaxBitrate := 24, audioPt := 110 }

/-- A negotiated session record whose AAC probe failed. -/
def noAacInfo : SessionInfo := { sampleInfo with hasLibFdk := false }

/-- A negotiate request over IPv6 used for the session-description claim. -/
def ipv6Req : PrepareRequest :=
  { sessionID := "s6", targetAddress := "fe80::2", addressVersion := "ipv6",
    video := ⟨50000, 0, [1, 2], [3]⟩, audio := ⟨50002, 0, [9, 8, 7], [6, 5]⟩ }

/-- A negotiation environment with AAC support and two-way audio. -/
def ipv6PrepEnv : PrepareEnv :=
  ⟨true, true, [7, 9], 40000, 5, some [⟨"2001:db8::1", "IPv6", false⟩]⟩

/-- The session record `prepareStream` stores for `ipv6Req` under
`ipv6PrepEnv` (verified by evaluation in the theorem below). -/
def ipv6Info : SessionInfo :=
  { address := "fe80::2", addressVersion := "ipv6", videoPort := 50000,
    videoReturnPort := 40004, videoCryptoSuite := 0, videoSRTP := [1, 2, 3],
    videoSSRC := 9, hasLibFdk := true, audioPort := 50002,
    audioReturnPort := 40000, audioTwoWayPort := 40002, rtpSplitter := some 5,
    audioCryptoSuite := 0, audioSRTP := [9, 8, 7, 6, 5], audioSSRC := 7 }

/-- A start environment with two-way audio enabled. -/
def twoWayStartEnv : StartEnv := { sampleStartEnv with twoWayAudio := true }

/-- The start request consuming the IPv6 negotiation. -/
def ipv6StartReq : StartRequest := { sampleStartReq with sessionID := "s6" }

theorem lookupA_insertA {α : Type} (l : List (String × α)) (k : String) (v : α) :
    lookupA (insertA l k v) k = some v := by
  simp [insertA, lookupA]

theorem lookupA_eraseA_self {α : Type} (l : List (String × α)) (k : String) :
    lookupA (eraseA l k) k = none := by
  induction l with
  | nil => rfl
  | cons p l ih =>
    by_cases h : p.1 = k <;> simp [eraseA, lookupA, h, ih]

theorem lookupA_eraseA_ne {α : Type} (l : List (String × α)) {k j : String}
    (h : k ≠ j) : lookupA (eraseA l j) k = lookupA l k := by
  induction l with
  | nil => rfl
  | cons p l ih =>
    show lookupA (if p.1 = j then eraseA l j else p :: eraseA l j) k
        = if p.1 = k then some p.2 else lookupA l k
    by_cases hp : p.1 = j
    · have hk : ¬(p.1 = k) := fun hk => h (hk ▸ hp)
      rw [if_pos hp, if_neg hk, ih]
    · rw [if_neg hp]
      show (if p.1 = k then some p.2 else lookupA (eraseA l j) k)
          = if p.1 = k then some p.2 else lookupA l k
      rw [ih]

theorem eraseA_of_lookup_none {α : Type} (l : List (String × α)) (k : String)
    (h : lookupA l k = none) : eraseA l k = l := by
  induction l with
  | nil => rfl
  | cons p l ih =>
    by_cases hp : p.1 = k
    · simp [lookupA, hp] at h
    · simp [lookupA, hp] at h
      simp [eraseA, hp, ih h]

theorem countKey_eraseA {α : Type} (l : List (String × α)) (k : String) :
    countKey (eraseA l k) k = 0 := by
  induction l with
  | nil => rfl
  | cons p l ih =>
    by_cases hp : p.1 = k <;> simp [eraseA, countKey, hp, ih] <;>
      simpa [countKey] using ih

theorem countKey_insertA {α : Type} (l : List (String × α)) (k : String) (v : α) :
    countKey (insertA l k v) k = 1 := by
  have h := countKey_eraseA l k
  simp [insertA, countKey] at h ⊢
  simpa [countKey] using h

theorem strAppendAssoc (a b c : String) : a ++ b ++ c = a ++ (b ++ c) := by
  cases a with
  | mk da =>
    cases b with
    | mk db =>
      cases c with
      | mk dc =>
        show String.mk (da ++ db ++ dc) = String.mk (da ++ (db ++ dc))
        rw [List.append_assoc]

theorem endsWithAppend (s t u : String) (h : ∃ p, t = p ++ u) :
    ∃ p, s ++ t = p ++ u := by
  obtain ⟨p, hp⟩ := h
  exact ⟨s ++ p, by rw [hp, strAppendAssoc]⟩

theorem stopStream_absent (s : RegState) (env : StopEnv) (id : String)
    (h : lookupA s.ongoingSessions id = none) :
    stopStream s env id =
      ⟨⟨eraseA s.pendingSessions id, eraseA s.ongoingSessions id⟩,
        [], [], false⟩ := by
  simp [stopStream, h]

theorem stopStream_state_dichotomy (s : RegState) (env : StopEnv)
    (id : String) :
    (stopStream s env id).state = s ∨
    (stopStream s env id).state =
      ⟨eraseA s.pendingSessions id, eraseA s.ongoingSessions id⟩ := by
  unfold stopStream
  cases hl : lookupA s.ongoingSessions id with
  | none => exact Or.inr rfl
  | some act =>
    cases hr : (runStops env act.ffmpeg).2 with
    | true => simp [hr]
    | false =>
      cases hsp : act.rtpSplitter with
      | none => simp [hr, hsp]
      | some sp =>
        cases hf : env.splitterCloseFails sp with
        | true => simp [hr, hsp, hf]
        | false => simp [hr, hsp, hf]

theorem stopStream_success_state (s : RegState) (env : StopEnv) (id : String)
    (h : (stopStream s env id).errorLogged = false) :
    (stopStream s env id).state =
      ⟨eraseA s.pendingSessions id, eraseA s.ongoingSessions id⟩ := by
  unfold stopStream at h ⊢
  cases hl : lookupA s.ongoingSessions id with
  | none => rfl
  | some act =>
    simp only [hl] at h ⊢
    cases hr : (runStops env act.ffmpeg).2 with
    | true => simp [hr] at h
    | false =>
      cases hsp : act.rtpSplitter with
      | none => simp [hr, hsp]
      | some sp =>
        cases hf : env.splitterCloseFails sp with
        | true => simp [hr, hsp, hf] at h
        | false => simp [hr, hsp, hf]

theorem runStops_noFail (env : StopEnv)
    (hp : ∀ p, env.procStopFails p = false) (l : List Nat) :
    runStops env l = (l, false) := by
  induction l with
  | nil => rfl
  | cons p ps ih => simp [runStops, hp p, ih]

theorem stopStream_noFail (s : RegState) (env : StopEnv) (id : String)
    (hp : ∀ p, env.procStopFails p = false)
    (hsp : ∀ q, env.splitterCloseFails q = false) :
    (stopStream s env id).state =
      ⟨eraseA s.pendingSessions id, eraseA s.ongoingSessions id⟩ ∧
    (stopStream s env id).signaled =
      (match lookupA s.ongoingSessions id with
        | some act => act.ffmpeg
        | none => []) := by
  unfold stopStream
  cases hl : lookupA s.ongoingSessions id with
  | none => exact ⟨rfl, rfl⟩
  | some act =>
    cases hspl : act.rtpSplitter with
    | none => simp [runStops_noFail env hp, hspl]
    | some sp => simp [runStops_noFail env hp, hspl, hsp sp]

theorem mem_eraseA {α : Type} {l : List (String × α)} {k : String}
    {p : String × α} (h : p ∈ eraseA l k) : p ∈ l ∧ p.1 ≠ k := by
  induction l with
  | nil => cases h
  | cons q l ih =>
    by_cases hq : q.1 = k
    · rw [show eraseA (q :: l) k = eraseA l k by simp [eraseA, hq]] at h
      obtain ⟨h1, h2⟩ := ih h
      exact ⟨List.mem_cons_of_mem q h1, h2⟩
    · rw [show eraseA (q :: l) k = q :: eraseA l k by simp [eraseA, hq]] at h
      rcases List.mem_cons.mp h with heq | htail
      · subst heq
        exact ⟨List.mem_cons_self .., hq⟩
      · obtain ⟨h1, h2⟩ := ih htail
        exact ⟨List.mem_cons_of_mem q h1, h2⟩

theorem eraseMany_all_keys {α : Type} (ids : List String) :
    ∀ l : List (String × α), (∀ p ∈ l, p.1 ∈ ids) → eraseMany l ids = [] := by
  induction ids with
  | nil =>
    intro l h
    cases l with
    | nil => rfl
    | cons p l => exact absurd (h p (by simp)) (by simp)
  | cons id rest ih =>
    intro l h
    show eraseMany (eraseA l id) rest = []
    apply ih
    intro p hp
    obtain ⟨hmem, hne⟩ := mem_eraseA hp
    rcases List.mem_cons.mp (h p hmem) with h1 | h2
    · exact absurd h1 hne
    · exact h2

theorem lookupA_eraseMany_none {α : Type} (ids : List String) :
    ∀ (l : List (String × α)) (k : String), lookupA l k = none →
      lookupA (eraseMany l ids) k = none := by
  induction ids with
  | nil => intro l k h; exact h
  | cons id rest ih =>
    intro l k h
    show lookupA (eraseMany (eraseA l id) rest) k = none
    apply ih
    by_cases hk : k = id
    · subst hk
      exact lookupA_eraseA_self l k
    · rw [lookupA_eraseA_ne l hk]
      exact h

theorem lookupA_eraseMany_mem {α : Type} (ids : List String) :
    ∀ (l : List (String × α)) (id : String), id ∈ ids →
      lookupA (eraseMany l ids) id = none := by
  induction ids with
  | nil => intro l id h; cases h
  | cons i rest ih =>
    intro l id h
    show lookupA (eraseMany (eraseA l i) rest) id = none
    by_cases hd : id = i
    · subst hd
      exact lookupA_eraseMany_none rest _ id (lookupA_eraseA_self l id)
    · rcases List.mem_cons.mp h with h1 | h2
      · exact absurd h1 hd
      · exact ih (eraseA l i) id h2

theorem shutdownFold_state (env : StopEnv)
    (hp : ∀ p, env.procStopFails p = false)
    (hsp : ∀ q, env.splitterCloseFails q = false) (ids : List String) :
    ∀ (s : RegState) (acc : List Nat),
      (shutdownFold env ids (s, acc)).1 =
        ⟨eraseMany s.pendingSessions ids, eraseMany s.ongoingSessions ids⟩ := by
  induction ids with
  | nil => intro s acc; rfl
  | cons id rest ih =>
    intro s acc
    show (shutdownFold env rest
      ((stopStream s env id).state, acc ++ (stopStream s env id).signaled)).1 = _
    rw [(stopStream_noFail s env id hp hsp).1, ih]
    rfl

theorem shutdownFold_acc_mono (env : StopEnv) (ids : List String) :
    ∀ (s : RegState) (acc : List Nat) (q : Nat), q ∈ acc →
      q ∈ (shutdownFold env ids (s, acc)).2 := by
  induction ids with
  | nil => intro s acc q h; exact h
  | cons id rest ih =>
    intro s acc q h
    show q ∈ (shutdownFold env rest
      ((stopStream s env id).state, acc ++ (stopStream s env id).signaled)).2
    exact ih _ _ q (List.mem_append_left _ h)

theorem shutdownFold_signals (env : StopEnv)
    (hp : ∀ p, env.procStopFails p = false)
    (hsp : ∀ q, env.splitterCloseFails q = false) (ids : List String) :
    ∀ (s : RegState) (acc : List Nat) (id : String) (act : ActiveSession),
      ids.Nodup → id ∈ ids → lookupA s.ongoingSessions id = some act →
      ∀ q ∈ act.ffmpeg, q ∈ (shutdownFold env ids (s, acc)).2 := by
  induction ids with
  | nil => intro s acc id act _ h; cases h
  | cons i rest ih =>
    intro s acc id act hnd hmem hl q hq
    show q ∈ (shutdownFold env rest
      ((stopStream s env i).state, acc ++ (stopStream s env i).signaled)).2
    rcases List.mem_cons.mp hmem with heq | hrest
    · subst heq
      have hsig := (stopStream_noFail s env id hp hsp).2
      rw [hl] at hsig
      apply shutdownFold_acc_mono
      rw [hsig]
      exact List.mem_append_right _ hq
    · have hne : id ≠ i := by
        intro h
        subst h
        exact (List.nodup_cons.mp hnd).1 hrest
      have hl2 : lookupA (stopStream s env i).state.ongoingSessions id
          = some act := by
        rw [(stopStream_noFail s env i hp hsp).1]
        show lookupA (eraseA s.ongoingSessions i) id = some act
        rw [lookupA_eraseA_ne _ hne]
        exact hl
      exact ih _ _ id act (List.nodup_cons.mp hnd).2 hrest hl2 q hq

theorem lookupA_of_nodup_mem {α : Type} {l : List (String × α)}
    (hnd : (l.map (fun p => p.1)).Nodup) {id : String} {act : α}
    (hmem : (id, act) ∈ l) : lookupA l id = some act := by
  induction l with
  | nil => cases hmem
  | cons p l ih =>
    rcases List.mem_cons.mp hmem with heq | htail
    · rw [← heq]
      show (if id = id then some act else lookupA l id) = some act
      simp
    · have hp1 : p.1 ∉ l.map (fun p => p.1) :=
        (List.nodup_cons.mp (by simpa using hnd)).1
      have hne : p.1 ≠ id := by
        intro h
        apply hp1
        rw [h]
        exact List.mem_map.mpr ⟨(id, act), htail, rfl⟩
      show (if p.1 = id then some p.2 else lookupA l id) = some act
      rw [if_neg hne]
      exact ih (List.nodup_cons.mp (by simpa using hnd)).2 htail

/-- Claim C1: `stopStream` is idempotent and non-throwing to the caller.
Stopping a session id present in neither registry is a no-op (nothing is
signalled, no error is logged, and the registries are unchanged); stopping
twice in a row leaves the state of the second stop equal to that of the first
(unconditionally, whatever the failure oracle does); and a stop that logged no
internal error has deleted both the pending and the ongoing entry for the id.
Non-propagation of internal failures is captured by `stopStream` being a total
function into `StopOutcome` for every failure oracle. -/
theorem stopStream_idempotent_noop_deletes (s : RegState) (env : StopEnv)
    (id : String) :
    (lookupA s.pendingSessions id = none → lookupA s.ongoingSessions id = none →
      stopStream s env id = ⟨s, [], [], false⟩) ∧
    (stopStream (stopStream s env id).state env id).state
      = (stopStream s env id).state ∧
    ((stopStream s env id).errorLogged = false →
      lookupA (stopStream s env id).state.pendingSessions id = none ∧
      lookupA (stopStream s env id).state.ongoingSessions id = none) := by
  refine ⟨?_, ?_, ?_⟩
  · intro h1 h2
    rw [stopStream_absent s env id h2, eraseA_of_lookup_none _ _ h1,
      eraseA_of_lookup_none _ _ h2]
  · rcases stopStream_state_dichotomy s env id with h | h
    · rw [h]
      exact h
    · rw [h]
      have h2 : lookupA (eraseA s.ongoingSessions id) id = none :=
        lookupA_eraseA_self ..
      have h1 : lookupA (eraseA s.pendingSessions id) id = none :=
        lookupA_eraseA_self ..
      rw [stopStream_absent _ env id h2]
      show RegState.mk _ _ = _
      rw [eraseA_of_lookup_none _ _ h1, eraseA_of_lookup_none _ _ h2]
  · intro h
    rw [stopStream_success_state s env id h]
    exact ⟨lookupA_eraseA_self .., lookupA_eraseA_self ..⟩

/-- Witness for claim C1 at a concrete input: stopping an id absent from both
registries of the empty state is a no-op and afterwards both entries for the
id are (still) absent. -/
theorem stopStream_idempotent_noop_deletes_witness :
    stopStream ⟨[], []⟩ noFailEnv "s1" = ⟨⟨[], []⟩, [], [], false⟩ ∧
    lookupA (stopStream ⟨[], []⟩ noFailEnv "s1").state.pendingSessions "s1"
      = none ∧
    lookupA (stopStream ⟨[], []⟩ noFailEnv "s1").state.ongoingSessions "s1"
      = none := by
  refine ⟨(stopStream_idempotent_noop_deletes ⟨[], []⟩ noFailEnv "s1").1 rfl rfl,
    ?_, ?_⟩
  · exact ((stopStream_idempotent_noop_deletes ⟨[], []⟩ noFailEnv "s1").2.2 rfl).1
  · exact ((stopStream_idempotent_noop_deletes ⟨[], []⟩ noFailEnv "s1").2.2 rfl).2

/-- Claim C5 (amended): shutdown calls `stopStream` on every key of the
ongoing registry, so afterwards (when no internal teardown call throws, and
with the JavaScript-object invariant that ongoing keys are unique) the ongoing
registry is empty, the pending entry of every previously ongoing id is
deleted, and every subprocess owned by a previously ongoing session has been
signalled to terminate.  Pending entries whose ids were never started are not
touched: the pending registry need not be empty (see the counterexample). -/
theorem shutdown_drains_ongoing (s : RegState) (env : StopEnv)
    (hp : ∀ p, env.procStopFails p = false)
    (hsp : ∀ q, env.splitterCloseFails q = false)
    (hnd : (s.ongoingSessions.map (fun p => p.1)).Nodup) :
    (shutdown s env).1.ongoingSessions = [] ∧
    (∀ e ∈ s.ongoingSessions,
      lookupA (shutdown s env).1.pendingSessions e.1 = none) ∧
    (∀ e ∈ s.ongoingSessions, ∀ q ∈ e.2.ffmpeg, q ∈ (shutdown s env).2) := by
  unfold shutdown
  have hstate := shutdownFold_state env hp hsp
    (s.ongoingSessions.map (fun p => p.1)) s []
  refine ⟨?_, ?_, ?_⟩
  · rw [hstate]
    show eraseMany s.ongoingSessions _ = []
    apply eraseMany_all_keys
    intro p hp2
    exact List.mem_map.mpr ⟨p, hp2, rfl⟩
  · intro e he
    rw [hstate]
    show lookupA (eraseMany s.pendingSessions _) e.1 = none
    apply lookupA_eraseMany_mem
    exact List.mem_map.mpr ⟨e, he, rfl⟩
  · intro e he q hq
    have hl : lookupA s.ongoingSessions e.1 = some e.2 :=
      lookupA_of_nodup_mem hnd he
    exact shutdownFold_signals env hp hsp _ s [] e.1 e.2 hnd
      (List.mem_map.mpr ⟨e, he, rfl⟩) hl q hq

/-- Counterexample for claim C5 as stated: a pending session that was
negotiated but never started survives shutdown, so the pending registry is not
empty afterwards (shutdown only iterates the ongoing registry). -/
theorem shutdown_pending_counterexample :
    shutdown ⟨[("p1", sampleInfo)], []⟩ noFailEnv
        = (⟨[("p1", sampleInfo)], []⟩, []) ∧
    (shutdown ⟨[("p1", sampleInfo)], []⟩ noFailEnv).1.pendingSessions ≠ [] :=
  ⟨rfl, by decide⟩

/-- Witness for the amended claim C5 at a concrete input: a state holding one
ongoing session (two subprocesses) and two pending entries.  After shutdown
the ongoing registry is empty, the ongoing id's pending entry is gone, and
both subprocess handles were signalled. -/
theorem shutdown_drains_ongoing_witness :
    (shutdown ⟨[("p1", sampleInfo), ("s1", sampleInfo)],
        [("s1", ⟨[7, 8], some 3⟩)]⟩ noFailEnv).1.ongoingSessions = [] ∧
    lookupA (shutdown ⟨[("p1", sampleInfo), ("s1", sampleInfo)],
        [("s1", ⟨[7, 8], some 3⟩)]⟩ noFailEnv).1.pendingSessions "s1" = none ∧
    7 ∈ (shutdown ⟨[("p1", sampleInfo), ("s1", sampleInfo)],
        [("s1", ⟨[7, 8], some 3⟩)]⟩ noFailEnv).2 ∧
    8 ∈ (shutdown ⟨[("p1", sampleInfo), ("s1", sampleInfo)],
        [("s1", ⟨[7, 8], some 3⟩)]⟩ noFailEnv).2 := by
  have h := shutdown_drains_ongoing
    ⟨[("p1", sampleInfo), ("s1", sampleInfo)], [("s1", ⟨[7, 8], some 3⟩)]⟩
    noFailEnv (fun _ => rfl) (fun _ => rfl) (by decide)
  exact ⟨h.1, h.2.1 ("s1", ⟨[7, 8], some 3⟩) (by decide),
    h.2.2 ("s1", ⟨[7, 8], some 3⟩) (by decide) 7 (by decide),
    h.2.2 ("s1", ⟨[7, 8], some 3⟩) (by decide) 8 (by decide)⟩

/-- Claim C7 (amended): negotiation never fails on interface lookup.  The
pending record is stored and the success callback is invoked for every
request; the response's address field is whatever `getDefaultIpAddress`
produced, which is null (`none`) exactly when the default interface has no
non-internal address at all (a family mismatch alone falls back to the first
non-internal address).  No `AllocationError` path exists in the code. -/
theorem prepareStream_address_null_proceeds (s : RegState) (env : PrepareEnv)
    (req : PrepareRequest) :
    (∃ info, lookupA (prepareStream s env req).state.pendingSessions
      req.sessionID = some info) ∧
    (prepareStream s env req).response.address
      = getDefaultIpAddress env.ifaceAddrs req.addressVersion := by
  constructor
  · exact ⟨_, lookupA_insertA ..⟩
  · rfl

/-- Counterexample for claim C7 as stated: with a default interface carrying
no non-internal address (`some []`), negotiation does not fail — it stores the
pending entry and returns a response whose address is null. -/
theorem prepareStream_no_interface_counterexample :
    (prepareStream ⟨[], []⟩
      ⟨true, false, [11, 22], 40000, 99, some []⟩ sampleReq).response.address
        = none ∧
    lookupA (prepareStream ⟨[], []⟩
      ⟨true, false, [11, 22], 40000, 99, some []⟩
        sampleReq).state.pendingSessions "s1" ≠ none := by
  constructor
  · rfl
  · decide

/-- Claim C9 (amended): every negotiation reserves exactly one video port
(the video return port) and one audio port (the audio return port); when the
AAC probe succeeded and the camera is two-way-audio capable it reserves three
further audio ports (the audio server port and the two talkback ports), for
four audio ports in total.  The video inbound port comes from the request and
is never reserved, and one audio port is reserved even without two-way
capability. -/
theorem prepareStream_port_counts (s : RegState) (env : PrepareEnv)
    (req : PrepareRequest) :
    (prepareStream s env req).videoPortsReserved.length = 1 ∧
    (prepareStream s env req).audioPortsReserved.length
      = (if env.hasLibFdk && env.twoWayAudio then 4 else 1) := by
  constructor
  · simp [prepareStream, reservePorts]
  · cases hc : env.hasLibFdk && env.twoWayAudio <;>
      simp [prepareStream, reservePorts, hc]

/-- Counterexample for claim C9 as stated, at a concrete negotiation without
two-way audio: the video legs reserve one port, not two, and one audio port is
reserved rather than none; and with two-way audio four audio ports are
reserved, not at most three. -/
theorem prepareStream_port_counts_counterexample :
    (prepareStream ⟨[], []⟩
      ⟨true, false, [11, 22], 40000, 99, none⟩
        sampleReq).videoPortsReserved.length ≠ 2 ∧
    (prepareStream ⟨[], []⟩
      ⟨true, false, [11, 22], 40000, 99, none⟩
        sampleReq).audioPortsReserved.length ≠ 0 ∧
    (prepareStream ⟨[], []⟩
      ⟨true, true, [11, 22], 40000, 99, none⟩
        sampleReq).audioPortsReserved.length = 4 := by
  refine ⟨by decide, by decide, by decide⟩

/-- Claim C10 (amended): the audio and video SSRCs returned by negotiation are
the first and second draws of the HomeKit random-identifier generator, taken
independently with no distinctness check; they are distinct exactly when the
two draws happen to differ. -/
theorem prepareStream_ssrc_from_generator (s : RegState) (env : PrepareEnv)
    (req : PrepareRequest) :
    (prepareStream s env req).response.audio.ssrc = env.ssrcValues.getD 0 0 ∧
    (prepareStream s env req).response.video.ssrc = env.ssrcValues.getD 1 0 ∧
    (env.ssrcValues.getD 0 0 ≠ env.ssrcValues.getD 1 0 →
      (prepareStream s env req).response.video.ssrc
        ≠ (prepareStream s env req).response.audio.ssrc) := by
  refine ⟨rfl, rfl, ?_⟩
  intro h hc
  exact h hc.symm

/-- Witness for the amended claim C10 at a concrete input with distinct
generator draws. -/
theorem prepareStream_ssrc_from_generator_witness :
    (prepareStream ⟨[], []⟩ ⟨true, false, [11, 22], 40000, 99, none⟩
      sampleReq).response.video.ssrc
    ≠ (prepareStream ⟨[], []⟩ ⟨true, false, [11, 22], 40000, 99, none⟩
      sampleReq).response.audio.ssrc :=
  (prepareStream_ssrc_from_generator ⟨[], []⟩
    ⟨true, false, [11, 22], 40000, 99, none⟩ sampleReq).2.2 (by decide)

/-- Counterexample for claim C10 as stated: a negotiation that completes when
the generator happens to return the same value twice yields equal video and
audio SSRCs — the code performs no distinctness check. -/
theorem prepareStream_equal_ssrc_counterexample :
    (prepareStream ⟨[], []⟩ ⟨true, false, [7, 7], 40000, 99, none⟩
      sampleReq).response.video.ssrc
    = (prepareStream ⟨[], []⟩ ⟨true, false, [7, 7], 40000, 99, none⟩
      sampleReq).response.audio.ssrc := by decide

/-- Claim C2: starting a session id with no pending entry fails with the
defined error and has no side effects — the embedding returns only the error,
so no registry is modified, no subprocess handle is launched, and no port is
drawn (the start path performs no reservation at all). -/
theorem startStream_noPending_error (s : RegState) (env : StartEnv)
    (req : StartRequest)
    (h : lookupA s.pendingSessions req.sessionID = none) :
    startStream s env req = Except.error StartError.noPendingSession := by
  simp [startStream, h]

/-- Witness for claim C2 at a concrete input: starting on empty registries
errors. -/
theorem startStream_noPending_error_witness :
    startStream ⟨[], []⟩ sampleStartEnv sampleStartReq
      = Except.error StartError.noPendingSession :=
  startStream_noPending_error ⟨[], []⟩ sampleStartEnv sampleStartReq rfl

/-- Claim C3: when a pending entry exists, start succeeds, afterwards the
pending entry for the id is gone and exactly one ongoing entry for the id
exists — so the id is in no state present in both registries at once. -/
theorem startStream_moves_pending_to_ongoing (s : RegState) (env : StartEnv)
    (req : StartRequest) (info : SessionInfo)
    (h : lookupA s.pendingSessions req.sessionID = some info) :
    ∃ r, startStream s env req = Except.ok r ∧
      lookupA r.state.pendingSessions req.sessionID = none ∧
      (∃ act, lookupA r.state.ongoingSessions req.sessionID = some act) ∧
      countKey r.state.ongoingSessions req.sessionID = 1 := by
  cases hc : (!info.hasLibFdk || !env.twoWayAudio) with
  | true =>
    refine ⟨⟨⟨eraseA s.pendingSessions req.sessionID,
        insertA s.ongoingSessions req.sessionID
          ⟨[env.outboundHandle], info.rtpSplitter⟩⟩,
        buildFcmd env req info, [env.outboundHandle], none, none⟩,
      ?_, lookupA_eraseA_self .., ⟨_, lookupA_insertA ..⟩, countKey_insertA ..⟩
    simp [startStream, h, hc]
  | false =>
    refine ⟨⟨⟨eraseA s.pendingSessions req.sessionID,
        insertA (insertA s.ongoingSessions req.sessionID
            ⟨[env.outboundHandle], info.rtpSplitter⟩) req.sessionID
          ⟨[env.outboundHandle, env.returnAudioHandle], info.rtpSplitter⟩⟩,
        buildFcmd env req info, [env.outboundHandle, env.returnAudioHandle],
        some (ffmpegReturnAudioCmd env), some (sdpReturnAudio env.name info)⟩,
      ?_, lookupA_eraseA_self .., ⟨_, lookupA_insertA ..⟩, countKey_insertA ..⟩
    simp [startStream, h, hc]

/-- Witness for claim C3 at a concrete input: one pending session, started. -/
theorem startStream_moves_pending_to_ongoing_witness :
    ∃ r, startStream ⟨[("s1", sampleInfo)], []⟩ sampleStartEnv sampleStartReq
        = Except.ok r ∧
      lookupA r.state.pendingSessions "s1" = none ∧
      (∃ act, lookupA r.state.ongoingSessions "s1" = some act) ∧
      countKey r.state.ongoingSessions "s1" = 1 :=
  startStream_moves_pending_to_ongoing ⟨[("s1", sampleInfo)], []⟩
    sampleStartEnv sampleStartReq sampleInfo (by decide)

theorem joinSep_endsWith (sep u : String) :
    ∀ (l : List String) (x : String), (∃ p, x = p ++ u) →
      ∃ p, joinSep sep (l ++ [x]) = p ++ u := by
  intro l
  induction l with
  | nil =>
    intro x h
    exact h
  | cons y ys ih =>
    intro x h
    cases ys with
    | nil => exact endsWithAppend (y ++ sep) x u h
    | cons z zs =>
      exact endsWithAppend (y ++ sep) (joinSep sep (z :: (zs ++ [x]))) u
        (ih x h)

/-- Claim C4: the transport packet sizes are the verbatim constants 564
(`188 * 3`, video) and 188 (`188 * 1`, audio) for every request — they never
depend on the requested bitrate, resolution, frame rate or sample rate — and
the video RTP leg (always) and the audio RTP leg (whenever AAC support was
probed) appear in the assembled command ending in exactly these `pkt_size`
parameters. -/
theorem fcmd_pkt_size_constants (env : StartEnv) (req : StartRequest)
    (info : SessionInfo) :
    toString videomtu = "564" ∧
    toString audiomtu = "188" ∧
    (∃ p, ffmpegVideoStream info = p ++ "&pkt_size=" ++ toString videomtu) ∧
    (∃ p, ffmpegAudioStream info = p ++ "&pkt_size=" ++ toString audiomtu) ∧
    (∃ t, buildFcmd env req info
      = ffmpegBase env ++ ffmpegVideoArgs env req ++ ffmpegVideoStream info
        ++ t) ∧
    (info.hasLibFdk = true → buildFcmd env req info
      = ffmpegBase env ++ ffmpegVideoArgs env req ++ ffmpegVideoStream info
        ++ ffmpegAudioArgs req ++ ffmpegAudioStream info ++ logSuffix env) := by
  refine ⟨rfl, rfl, ?_, ?_, ?_, ?_⟩
  · have hurl : ∃ p, srtpVideoUrl info
        = p ++ ("&pkt_size=" ++ toString videomtu) :=
      ⟨"srtp://" ++ info.address ++ ":" ++ toString info.videoPort
         ++ "?rtcpport=" ++ toString info.videoPort ++ "&localrtcpport="
         ++ toString info.videoPort, strAppendAssoc ..⟩
    have h2 : ∃ p, ffmpegVideoStream info
        = p ++ ("&pkt_size=" ++ toString videomtu) :=
      joinSep_endsWith " " ("&pkt_size=" ++ toString videomtu)
        ["", "-ssrc " ++ toString info.videoSSRC, "-f rtp",
         "-srtp_out_suite AES_CM_128_HMAC_SHA1_80",
         "-srtp_out_params " ++ toBase64 info.videoSRTP]
        (srtpVideoUrl info) hurl
    obtain ⟨p, hp⟩ := h2
    exact ⟨p, by rw [hp, strAppendAssoc]⟩
  · have hurl : ∃ p, srtpAudioUrl info
        = p ++ ("&pkt_size=" ++ toString audiomtu) :=
      ⟨"srtp://" ++ info.address ++ ":" ++ toString info.audioPort
         ++ "?rtcpport=" ++ toString info.audioPort ++ "&localrtcpport="
         ++ toString info.audioPort, strAppendAssoc ..⟩
    have h2 : ∃ p, ffmpegAudioStream info
        = p ++ ("&pkt_size=" ++ toString audiomtu) :=
      joinSep_endsWith " " ("&pkt_size=" ++ toString audiomtu)
        ["", "-ssrc " ++ toString info.audioSSRC, "-f rtp",
         "-srtp_out_suite AES_CM_128_HMAC_SHA1_80",
         "-srtp_out_params " ++ toBase64 info.audioSRTP]
        (srtpAudioUrl info) hurl
    obtain ⟨p, hp⟩ := h2
    exact ⟨p, by rw [hp, strAppendAssoc]⟩
  · cases hf : info.hasLibFdk with
    | false => exact ⟨logSuffix env, by simp [buildFcmd, hf]⟩
    | true =>
      exact ⟨ffmpegAudioArgs req ++ ffmpegAudioStream info ++ logSuffix env,
        by simp [buildFcmd, hf, strAppendAssoc]⟩
  · intro hf
    simp [buildFcmd, hf]

/-- Witness for claim C4 at a concrete input with AAC support, exercising the
audio-leg hypothesis. -/
theorem fcmd_pkt_size_constants_witness :
    sampleInfo.hasLibFdk = true ∧
    buildFcmd sampleStartEnv sampleStartReq sampleInfo
      = ffmpegBase sampleStartEnv
        ++ ffmpegVideoArgs sampleStartEnv sampleStartReq
        ++ ffmpegVideoStream sampleInfo ++ ffmpegAudioArgs sampleStartReq
        ++ ffmpegAudioStream sampleInfo ++ logSuffix sampleStartEnv :=
  ⟨rfl, (fcmd_pkt_size_constants sampleStartEnv sampleStartReq
    sampleInfo).2.2.2.2.2 rfl⟩

/-- Claim C8: when the AAC probe failed, the assembled command is exactly the
video-only command (base, video arguments, video RTP leg, log tail) with no
audio arguments at all, and the session still starts successfully: the start
returns a result whose ongoing entry exists, launching only the outbound
process with no return-audio command and no session description. -/
theorem startStream_video_only_when_no_aac (s : RegState) (env : StartEnv)
    (req : StartRequest) (info : SessionInfo)
    (h : lookupA s.pendingSessions req.sessionID = some info)
    (hfdk : info.hasLibFdk = false) :
    ∃ r, startStream s env req = Except.ok r ∧
      r.cmd = ffmpegBase env ++ ffmpegVideoArgs env req
        ++ ffmpegVideoStream info ++ logSuffix env ∧
      r.returnAudioCmd = none ∧ r.sdp = none ∧
      r.launched = [env.outboundHandle] ∧
      (∃ act, lookupA r.state.ongoingSessions req.sessionID = some act) := by
  refine ⟨⟨⟨eraseA s.pendingSessions req.sessionID,
      insertA s.ongoingSessions req.sessionID
        ⟨[env.outboundHandle], info.rtpSplitter⟩⟩,
      buildFcmd env req info, [env.outboundHandle], none, none⟩,
    ?_, ?_, rfl, rfl, rfl, ⟨_, lookupA_insertA ..⟩⟩
  · simp [startStream, h, hfdk]
  · show buildFcmd env req info = _
    simp [buildFcmd, hfdk]

/-- Witness for claim C8 at a concrete input without AAC support. -/
theorem startStream_video_only_when_no_aac_witness :
    ∃ r, startStream ⟨[("s1", noAacInfo)], []⟩ sampleStartEnv sampleStartReq
        = Except.ok r ∧
      r.cmd = ffmpegBase sampleStartEnv
        ++ ffmpegVideoArgs sampleStartEnv sampleStartReq
        ++ ffmpegVideoStream noAacInfo ++ logSuffix sampleStartEnv ∧
      r.returnAudioCmd = none ∧ r.sdp = none ∧
      r.launched = [sampleStartEnv.outboundHandle] ∧
      (∃ act, lookupA r.state.ongoingSessions "s1" = some act) :=
  startStream_video_only_when_no_aac ⟨[("s1", noAacInfo)], []⟩ sampleStartEnv
    sampleStartReq noAacInfo (by decide) rfl

/-- Claim C6: the session description delivered on the two-way audio path
carries the negotiated audio SRTP key+salt in base64 (last conjunct), but for
the IPv6 address family the originator line diverges from the documented
literal structure: the string literal of the `sdpIpVersion` ternary carries a
stray trailing space, producing `o=- 0 0 IN IP6  127.0.0.1` with two spaces
before the loopback address (the connection line is malformed the same way),
while the IPv4 originator line is exactly as documented.  Evaluated
end-to-end: the record stored by a concrete IPv6 negotiation, when started,
yields exactly this session description. -/
theorem sdp_ipv6_originator_line_bug :
    lookupA (prepareStream ⟨[], []⟩ ipv6PrepEnv
      ipv6Req).state.pendingSessions "s6" = some ipv6Info ∧
    (startStream (prepareStream ⟨[], []⟩ ipv6PrepEnv ipv6Req).state
        twoWayStartEnv ipv6StartReq).toOption.map (fun r => r.sdp)
      = some (some (sdpReturnAudio "Cam" ipv6Info)) ∧
    (sdpReturnAudioLines "Cam" ipv6Info).getD 1 ""
      = "o=- 0 0 IN IP6  127.0.0.1" ∧
    "o=- 0 0 IN IP6  127.0.0.1" ≠ "o=- 0 0 IN IP6 127.0.0.1" ∧
    (sdpReturnAudioLines "Cam" ipv6Info).getD 9 ""
      = "a=crypto:1 AES_CM_128_HMAC_SHA1_80 inline:"
          ++ toBase64 ([9, 8, 7] ++ [6, 5]) ∧
    (sdpReturnAudioLines "Cam" sampleInfo).getD 1 ""
      = "o=- 0 0 IN IP4 127.0.0.1" := by
  set_option maxRecDepth 4096 in
  refine ⟨by decide, by decide, by decide, by decide, by decide, by decide⟩

end Protect
